import Mathlib

/-!
Shallow embedding of the template-agent event-normalization and
session-continuity layer (src/template_agent/src/core/agent_utils.py,
src/template_agent/src/core/manager.py, src/template_agent/src/routes/stream.py,
src/template_agent/src/schema.py), together with theorems settling the frozen
claims about it.

Modeling conventions, used throughout:
- Python strings are `String`, Python `None`-able values are `Option`,
  Python lists are `List`, and string-keyed dicts are insertion-ordered
  association lists `List (String × _)` with last-write-wins update.
- Python truthiness of a string is `s ≠ ""`, of a list `¬ l.isEmpty`, of an
  optional value "present and itself truthy".
- Fallible Python code is `Except PyError _`; an uncaught exception is an
  `Except.error`.  Dynamic attribute absence (`hasattr` returning False) is
  modeled by `Option` fields being `none`.
-/

namespace TemplateAgent

/-- One element of a structured message content list: either a plain string or
a tagged mapping (a dict carrying a "type" tag, and a "text" payload which is
meaningful when the tag is "text"). -/
inductive ContentItem where
  | str (s : String)
  | tagged (tag : String) (text : String)
deriving DecidableEq, Repr

/-- Message content as used by agent_utils.py: either a plain string or a list
of content items. -/
inductive MsgContent where
  | str (s : String)
  | items (l : List ContentItem)
deriving DecidableEq, Repr

/-- Python truthiness of a content value: empty string and empty list are falsy. -/
def MsgContent.isTruthy : MsgContent → Bool
  | .str s => s ≠ ""
  | .items l => !l.isEmpty

/-- agent_utils.convert_message_content_to_string: strings are returned as-is;
for lists, plain strings are kept and tagged items contribute their text field
exactly when the tag equals "text", concatenated in order. -/
def convert_message_content_to_string : MsgContent → String
  | .str s => s
  | .items l => String.join (l.filterMap fun item =>
      match item with
      | .str s => some s
      | .tagged tag text => if tag = "text" then some text else none)

/-- agent_utils.remove_tool_calls: strings unchanged; for lists, drop exactly
the tagged items whose tag equals "tool_use", preserving order. -/
def remove_tool_calls : MsgContent → MsgContent
  | .str s => .str s
  | .items l => .items (l.filter fun item =>
      match item with
      | .str _ => true
      | .tagged tag _ => tag != "tool_use")

/-- A raw engine-side tool-call dict; each of the keys "name", "args", "id"
may be absent (`none`). -/
structure RawToolCall where
  name : Option String := none
  args : Option (List (String × String)) := none
  id : Option String := none
deriving DecidableEq, Repr

/-- schema.ToolCall: the formatted tool call produced by the normalizer. -/
structure ToolCall where
  name : String
  args : List (String × String)
  id : Option String
  type : Option String := none
deriving DecidableEq, Repr

/-- Python truthiness filter on an optional string: `None` and the empty
string both collapse to `none`. -/
def truthyOptStr : Option String → Option String
  | some s => if s = "" then none else some s
  | none => none

/-- Pythonic `a or b` on optional strings: `a` unless it is `None` or empty. -/
def pyOrOpt (a b : Option String) : Option String :=
  match a with
  | some s => if s = "" then b else some s
  | none => b

/-- Insertion-ordered dict write: overwrite in place if the key exists,
else append (Python dict assignment semantics). -/
def dictInsert {α : Type} (d : List (String × α)) (k : String) (v : α) :
    List (String × α) :=
  if d.any (fun p => p.1 == k) then
    d.map (fun p => if p.1 == k then (k, v) else p)
  else d ++ [(k, v)]

/-- Python dict.update: fold the right dict into the left one. -/
def dictUpdate {α : Type} (d e : List (String × α)) : List (String × α) :=
  e.foldl (fun acc p => dictInsert acc p.1 p.2) d

/-- Key lookup in an association-list dict. -/
def lookupKey {α : Type} (d : List (String × α)) (k : String) : Option α :=
  (d.find? (fun p => p.1 == k)).map (fun p => p.2)

/-- The "side-channel" map additional_kwargs of a raw AI message.  Only the
keys the code reads are modeled; `has_other_keys` records whether further keys
exist (it only matters for the dict's truthiness). -/
structure AdditionalKwargs where
  tool_calls : Option (List RawToolCall) := none
  response_metadata : Option (List (String × String)) := none
  ai_call_id : Option String := none
  has_other_keys : Bool := false
deriving DecidableEq, Repr

/-- Python truthiness of additional_kwargs: non-empty as a dict. -/
def AdditionalKwargs.isTruthy (k : AdditionalKwargs) : Bool :=
  k.tool_calls.isSome || k.response_metadata.isSome || k.ai_call_id.isSome ||
    k.has_other_keys

/-- schema.ChatMessage, the normalized internal message. `custom_data` is
`none` for the default empty dict, `some item` when set to the first element
of a custom message's content payload. -/
structure ChatMessage where
  type : String
  content : String
  tool_calls : List ToolCall := []
  tool_call_id : Option String := none
  run_id : Option String := none
  thread_id : Option String := none
  session_id : Option String := none
  ai_call_id : Option String := none
  response_metadata : List (String × String) := []
  custom_data : Option ContentItem := none
deriving DecidableEq, Repr

/-- The Python exceptions the embedded code can raise. `valueError` carries
the exception message; the "Unsupported ..." ValueErrors raised by
langchain_to_chat_message (the spec's UnsupportedMessageKind) are
`valueError` values whose message starts with "Unsupported". -/
inductive PyError where
  | valueError (msg : String)
  | indexError
  | attributeError
  | typeError
  | validationError
deriving DecidableEq, Repr

/-- The raw engine-side message shapes fed to the normalizer: LangChain
HumanMessage, AIMessage, ToolMessage, ChatMessage (with a role), or any other
object (`unknown`, carrying its class name). -/
inductive BaseMessage where
  | human (content : MsgContent)
  | ai (content : MsgContent) (tool_calls : List RawToolCall)
      (additional_kwargs : AdditionalKwargs)
      (response_metadata : List (String × String))
  | tool (content : MsgContent) (tool_call_id : String) (name : Option String)
  | chat (role : String) (content : MsgContent)
  | unknown (className : String)
deriving DecidableEq, Repr

/-- The tool-call formatting loop of the AI branch of langchain_to_chat_message:
entries are dicts; an entry is kept exactly when it has both "name" and "args",
its id is dropped when absent or empty, and type is set to "tool_call". -/
def formatToolCalls (tcs : List RawToolCall) : List ToolCall :=
  tcs.filterMap fun tc =>
    match tc.name, tc.args with
    | some n, some a =>
        some { name := n, args := a, id := truthyOptStr tc.id,
               type := some "tool_call" }
    | _, _ => none

/-- Python `content[0]`: first character of a non-empty string (itself a
string), first element of a non-empty list, IndexError otherwise. -/
def contentFirst : MsgContent → Except PyError ContentItem
  | .str s => if s = "" then .error .indexError else .ok (.str (s.take 1))
  | .items [] => .error .indexError
  | .items (h :: _) => .ok h

/-- agent_utils.langchain_to_chat_message, with the post-call state of the
input message made explicit (second component): the AI branch binds the local
name tool_calls to `message.tool_calls or []`, which aliases the message's own
list when that list is non-empty, so the subsequent `extend` with the
side-channel tool calls mutates the input message in that case.  Similarly
`ai_message.response_metadata = message.response_metadata` aliases the input's
metadata dict, which the subsequent `update` mutates.  The first component is
the returned ChatMessage, or the exception raised. -/
def langchain_to_chat_message_full (m : BaseMessage) :
    Except PyError ChatMessage × BaseMessage :=
  match m with
  | .human content =>
      (.ok { type := "human",
             content := convert_message_content_to_string content }, m)
  | .ai content tcs kw respMeta =>
      -- tool_calls = message.tool_calls or []; extend iff kwargs truthy and
      -- the "tool_calls" key is present
      let extending := kw.isTruthy && kw.tool_calls.isSome
      let kwTcs := kw.tool_calls.getD []
      let combined := tcs ++ (if extending then kwTcs else [])
      let formatted := formatToolCalls combined
      -- if message.response_metadata: copied; then merged with the
      -- side-channel "response_metadata" when kwargs truthy and key present
      let base := if respMeta.isEmpty then [] else respMeta
      let merged := if kw.isTruthy then
          (match kw.response_metadata with
           | some km => dictUpdate base km
           | none => base)
        else base
      let cm : ChatMessage :=
        { type := "ai"
          content := convert_message_content_to_string content
          tool_calls := if combined.isEmpty then [] else formatted
          response_metadata := merged
          ai_call_id := if kw.isTruthy then kw.ai_call_id else none }
      -- post-call state of the input: the alias mutates message.tool_calls
      -- exactly when it was non-empty and an extend happened; the metadata
      -- alias mutates message.response_metadata when it was truthy and a
      -- side-channel merge happened
      let postTcs := if tcs.isEmpty then tcs else combined
      let postMeta :=
        if !respMeta.isEmpty && kw.isTruthy && kw.response_metadata.isSome then
          merged
        else respMeta
      (.ok cm, .ai content postTcs kw postMeta)
  | .tool content tcid _ =>
      (.ok { type := "tool",
             content := convert_message_content_to_string content,
             tool_call_id := some tcid }, m)
  | .chat role content =>
      if role = "custom" then
        match contentFirst content with
        | .error e => (.error e, m)
        | .ok item =>
            match item with
            | .str _ => (.error .validationError, m)
            | .tagged t x =>
                (.ok { type := "custom", content := "",
                       custom_data := some (.tagged t x) }, m)
      else
        (.error (.valueError ("Unsupported chat message role: " ++ role)), m)
  | .unknown cname =>
      (.error (.valueError ("Unsupported message type: " ++ cname)), m)

/-- The value returned (or exception raised) by langchain_to_chat_message. -/
def langchain_to_chat_message (m : BaseMessage) : Except PyError ChatMessage :=
  (langchain_to_chat_message_full m).1

/-- The metadata half of a token-channel event; only its "tags" key is read. -/
structure Metadata where
  tags : Option (List String) := none
deriving DecidableEq, Repr

/-- The message half of a token-channel event.  `is_chunk` records whether it
is an AIMessageChunk instance; the three id-bearing attributes are `none` when
the attribute is absent on the object (`hasattr` is False). -/
structure StreamMsg where
  is_chunk : Bool
  content : MsgContent
  tool_calls : Option (List RawToolCall) := none
  tool_call_chunks : Option (List RawToolCall) := none
  tool_call_id : Option String := none
deriving DecidableEq, Repr

/-- manager.AgentManager._extract_tool_call_id_from_message: first tool_calls
entry's "id" when the tool_calls attribute is present and non-empty (returned
immediately, even when that id is absent), else the first tool_call_chunks
entry's "id", else the message's own tool_call_id when present and truthy;
lookup failures are caught and give `none`. -/
def extract_tool_call_id_from_message (msg : StreamMsg) : Option String :=
  match msg.tool_calls with
  | some (tc :: _) => tc.id
  | _ =>
    match msg.tool_call_chunks with
    | some (tc :: _) => tc.id
    | _ => truthyOptStr msg.tool_call_id

/-- A LangGraph interrupt, carrying the payload used as synthetic AI content. -/
structure Interrupt where
  value : MsgContent
deriving DecidableEq, Repr

/-- The value of one (key, value) fragment pair in an updates-channel message
list.  The variants cover the argument types the AIMessage constructor accepts
for the keys the pipeline can see; `other` is any further value. -/
inductive PairVal where
  | content (c : MsgContent)
  | toolCalls (l : List RawToolCall)
  | kwargs (k : AdditionalKwargs)
  | respMeta (d : List (String × String))
  | other (s : String)
deriving DecidableEq, Repr

/-- One item of an updates-channel node's "messages" list: a complete message
object or a (key, value) fragment tuple. -/
inductive UpdateItem where
  | msg (m : BaseMessage)
  | pair (key : String) (val : PairVal)
deriving DecidableEq, Repr

/-- The per-node value of an updates-channel event: Python None, a dict
(`dict (some l)` when it has a "messages" key, `dict none` for an empty dict
without one), or a list of interrupts (what the engine sends under the
"__interrupt__" node). -/
inductive NodeUpdates where
  | nothing
  | dict (messages : Option (List UpdateItem))
  | interrupts (l : List Interrupt)
deriving DecidableEq, Repr

/-- One (stream_mode, event) pair yielded by the engine.  Non-tuple yields are
skipped by stream_response before any processing, so they are not modeled. -/
inductive StreamEvent where
  | updates (nodes : List (String × NodeUpdates))
  | messages (msg : StreamMsg) (metadata : Metadata)
  | custom (event : BaseMessage)
deriving DecidableEq, Repr

/-- The updates-branch per-item step of _update_tool_call_tracking: `some v`
means "assign v to the current id and return from the function", `none` means
"no match, keep scanning".  Tuples and messages without the attributes match
nothing; an AI message with a non-empty tool_calls list assigns its first
entry's "id" (which may itself be absent, assigning None); a tool message with
a truthy tool_call_id assigns it. -/
def trackFromUpdateItem : UpdateItem → Option (Option String)
  | .pair _ _ => none
  | .msg (.ai _ tcs _ _) =>
      match tcs with
      | tc :: _ => some tc.id
      | [] => none
  | .msg (.tool _ tcid _) => if tcid = "" then none else some (some tcid)
  | .msg _ => none

/-- Scan of one node's message list by _update_tool_call_tracking. -/
def trackFromItems : List UpdateItem → Option (Option String)
  | [] => none
  | item :: rest =>
      match trackFromUpdateItem item with
      | some v => some v
      | none => trackFromItems rest

/-- Scan of the node map by _update_tool_call_tracking: only truthy dict
values with a "messages" key are examined (interrupt lists fail the
membership test, None is falsy). -/
def trackFromNodes : List (String × NodeUpdates) → Option (Option String)
  | [] => none
  | (_, u) :: rest =>
      match u with
      | .dict (some msgs) =>
          (match trackFromItems msgs with
           | some v => some v
           | none => trackFromNodes rest)
      | _ => trackFromNodes rest

/-- The messages-branch of _update_tool_call_tracking on the chunk itself:
a present non-empty tool_calls list assigns its first entry's "id"; otherwise
a present truthy tool_call_id assigns it; otherwise no change.  Note the
branch never reads tool_call_chunks. -/
def trackFromStreamMsg (current : Option String) (msg : StreamMsg) :
    Option String :=
  match msg.tool_calls with
  | some (tc :: _) => tc.id
  | _ =>
      match truthyOptStr msg.tool_call_id with
      | some s => some s
      | none => current

/-- manager.AgentManager._update_tool_call_tracking: total by construction,
because the whole body is wrapped in a try/except that logs any lookup error
and leaves the tracked id as it was. -/
def update_tool_call_tracking (current : Option String) (ev : StreamEvent) :
    Option String :=
  match ev with
  | .updates nodes =>
      (match trackFromNodes nodes with
       | some v => v
       | none => current)
  | .messages msg _ => trackFromStreamMsg current msg
  | .custom _ => current

/-- The simplified content dict built by
_convert_chat_message_to_simple_format.  Optional fields that Python omits
when falsy are `none` (or `[]` for the list/dict fields). -/
structure SimpleContent where
  type : String
  content : String
  tool_calls : List ToolCall := []
  tool_call_id : Option String := none
  run_id : Option String := none
  thread_id : Option String := none
  session_id : Option String := none
  ai_call_id : Option String := none
  response_metadata : List (String × String) := []
  custom_data : Option ContentItem := none
deriving DecidableEq, Repr

/-- One simplified output event: a message event, a token event (with its
optional tool_call_id), or an error event with message text, recoverable flag
and optional error_type. -/
inductive OutputEvent where
  | message (content : SimpleContent)
  | token (text : String) (tool_call_id : Option String)
  | error (message : String) (recoverable : Bool) (error_type : Option String)
deriving DecidableEq, Repr

/-- manager.AgentManager._convert_chat_message_to_simple_format: type and
content always; every other field only when truthy. -/
def convert_chat_message_to_simple_format (cm : ChatMessage)
    (thread_id : String) (session_id : Option String) : SimpleContent :=
  { type := cm.type
    content := cm.content
    tool_calls := cm.tool_calls
    tool_call_id := truthyOptStr cm.tool_call_id
    run_id := truthyOptStr cm.run_id
    thread_id := if thread_id = "" then none else some thread_id
    session_id := truthyOptStr session_id
    ai_call_id := truthyOptStr cm.ai_call_id
    response_metadata := cm.response_metadata
    custom_data := cm.custom_data }

/-- manager.AgentManager._handle_token_events: skip when the metadata tags
contain "skip_stream" or the message is not an AIMessageChunk; otherwise strip
tool_use fragments, and when the remaining content is truthy emit one token
event whose text is the flattened content; the tool_call_id attached is the
id extracted from the chunk itself, falling back to the tracked current id,
and the field is omitted when that value is falsy. -/
def handle_token_events (current_tool_call_id : Option String)
    (msg : StreamMsg) (metadata : Metadata) : Option OutputEvent :=
  if (metadata.tags.getD []).contains "skip_stream" then none
  else if !msg.is_chunk then none
  else
    let content := remove_tool_calls msg.content
    if content.isTruthy then
      let tid := pyOrOpt (extract_tool_call_id_from_message msg)
        current_tool_call_id
      some (.token (convert_message_content_to_string content)
        (truthyOptStr tid))
    else none

/-- manager.AgentManager._handle_custom_events: normalize the event and wrap
it as one message event; any exception is caught, logged, and None is
returned, i.e. no event at all is emitted for the failed custom event. -/
def handle_custom_events (event : BaseMessage) (run_id thread_id : String)
    (session_id : Option String) : Option OutputEvent :=
  match langchain_to_chat_message event with
  | .ok cm =>
      some (.message (convert_chat_message_to_simple_format
        { cm with run_id := some run_id } thread_id session_id))
  | .error _ => none

/-- The parameter names accepted by the langchain AIMessage constructor
(inspect.signature(AIMessage) in _create_ai_message): the BaseMessage fields
plus the AIMessage-specific ones. -/
def aiMessageValidKeys : List String :=
  ["content", "additional_kwargs", "response_metadata", "type", "name", "id",
   "example", "tool_calls", "invalid_tool_calls", "usage_metadata"]

/-- manager.AgentManager._create_ai_message: keep only the parts whose key the
AIMessage constructor recognizes, then construct AIMessage(**filtered).  The
constructor requires "content" and validates field types, so a filtered dict
without a content entry, or with an ill-typed entry, raises a pydantic
validation error. -/
def createAiMessage (parts : List (String × PairVal)) :
    Except PyError BaseMessage :=
  let filtered := parts.filter (fun p => aiMessageValidKeys.contains p.1)
  match lookupKey filtered "content" with
  | none => .error .validationError
  | some pv =>
      match pv with
      | .content c =>
          let tcs := match lookupKey filtered "tool_calls" with
            | some (.toolCalls l) => some l
            | some _ => none
            | none => some []
          let kw := match lookupKey filtered "additional_kwargs" with
            | some (.kwargs k) => some k
            | some _ => none
            | none => some ({} : AdditionalKwargs)
          let rm := match lookupKey filtered "response_metadata" with
            | some (.respMeta d) => some d
            | some _ => none
            | none => some ([] : List (String × String))
          match tcs, kw, rm with
          | some t, some k, some r => .ok (.ai c t k r)
          | _, _, _ => .error .validationError
      | _ => .error .validationError

/-- The loop body state of _process_message_tuples: `processed` is the output
list built so far, the association list is the in-progress current_message
dict.  A pair writes its key; a complete message first flushes a non-empty
dict through _create_ai_message, then is appended itself; at the end a
trailing non-empty dict is flushed.  An exception from _create_ai_message
propagates out of the whole function. -/
def processMessageTuplesGo : List BaseMessage → List (String × PairVal) →
    List UpdateItem → Except PyError (List BaseMessage)
  | processed, current, [] =>
      if current.isEmpty then .ok processed
      else do
        let m ← createAiMessage current
        .ok (processed ++ [m])
  | processed, current, .pair k v :: rest =>
      processMessageTuplesGo processed (dictInsert current k v) rest
  | processed, current, .msg m :: rest =>
      if current.isEmpty then
        processMessageTuplesGo (processed ++ [m]) current rest
      else do
        let am ← createAiMessage current
        processMessageTuplesGo (processed ++ [am, m]) [] rest

/-- manager.AgentManager._process_message_tuples. -/
def processMessageTuples (l : List UpdateItem) :
    Except PyError (List BaseMessage) :=
  processMessageTuplesGo [] [] l

/-- The supervisor special case of _handle_update_events: keep only the last
AIMessage of the node's list when it has one, else keep the list unchanged. -/
def supervisorFilter (l : List UpdateItem) : List UpdateItem :=
  let ai := l.filter (fun item =>
    match item with
    | .msg (.ai _ _ _ _) => true
    | _ => false)
  match ai.getLast? with
  | some m => [m]
  | none => l

/-- Attribute read of .content on an arbitrary object: absent on non-message
objects. -/
def contentOf : BaseMessage → Option MsgContent
  | .human c => some c
  | .ai c _ _ _ => some c
  | .tool c _ _ => some c
  | .chat _ c => some c
  | .unknown _ => none

/-- The expert-node special case of _handle_update_events: re-tag the node's
first message as ToolMessage(content=first.content, name=node,
tool_call_id="").  An empty list raises IndexError and a first element
without a .content attribute (a fragment tuple) raises AttributeError. -/
def expertRetag (node : String) (l : List UpdateItem) :
    Except PyError (List UpdateItem) :=
  match l with
  | [] => .error .indexError
  | .pair _ _ :: _ => .error .attributeError
  | .msg m :: _ =>
      match contentOf m with
      | some c => .ok [.msg (.tool c "" (some node))]
      | none => .error .attributeError

/-- The supervisor/expert special cases of _handle_update_events, applied to
the update_messages list after the "messages" read. -/
def afterMessagesGet (node : String) (msgs : List UpdateItem) :
    Except PyError (List UpdateItem) :=
  let msgs := if node = "supervisor" then supervisorFilter msgs else msgs
  if node = "research_expert" || node = "math_expert" then
    expertRetag node msgs
  else .ok msgs

/-- The per-node collection step of _handle_update_events.  The interrupt
node turns each interrupt into a synthetic AIMessage from its payload
(iterating a None or a dict there raises); any other node reads
(updates or ...).get("messages", []) — which raises AttributeError on an
interrupt list — and then applies the supervisor and expert special cases. -/
def nodeMessages (node : String) (u : NodeUpdates) :
    Except PyError (List UpdateItem) :=
  if node = "__interrupt__" then
    match u with
    | .interrupts l => .ok (l.map (fun i => .msg (.ai i.value [] {} [])))
    | .nothing => .error .typeError
    | .dict none => .ok []
    | .dict (some _) => .error .attributeError
  else
    match u with
    | .interrupts _ => .error .attributeError
    | .nothing => afterMessagesGet node []
    | .dict none => afterMessagesGet node []
    | .dict (some msgs) => afterMessagesGet node msgs

/-- The node loop of _handle_update_events, concatenating each node's
collected messages in order into new_messages. -/
def collectNewMessages : List (String × NodeUpdates) →
    Except PyError (List UpdateItem)
  | [] => .ok []
  | (node, u) :: rest => do
      let here ← nodeMessages node u
      let tail ← collectNewMessages rest
      .ok (here ++ tail)

/-- The per-message try/except body of _handle_update_events: a successfully
normalized message (with run_id stamped on it) becomes one message event; any
exception becomes one recoverable error event with the fixed text
"Message formatting error" and no error_type field. -/
def formatProcessedMessage (run_id thread_id : String)
    (session_id : Option String) (m : BaseMessage) : OutputEvent :=
  match langchain_to_chat_message m with
  | .ok cm =>
      .message (convert_chat_message_to_simple_format
        { cm with run_id := some run_id } thread_id session_id)
  | .error _ => .error "Message formatting error" true none

/-- The message loop of _handle_update_events, appending one event per
processed message to the accumulator in order. -/
def formatMessagesLoop (run_id thread_id : String)
    (session_id : Option String) :
    List BaseMessage → List OutputEvent → List OutputEvent
  | [], acc => acc
  | m :: rest, acc =>
      formatMessagesLoop run_id thread_id session_id rest
        (acc ++ [formatProcessedMessage run_id thread_id session_id m])

/-- manager.AgentManager._handle_update_events: collect the node messages,
reassemble fragment pairs, then format each resulting message.  An exception
escaping the collection or reassembly phases propagates to stream_response's
fatal handler. -/
def handle_update_events (event : List (String × NodeUpdates))
    (run_id thread_id : String) (session_id : Option String) :
    Except PyError (List OutputEvent) := do
  let newMessages ← collectNewMessages event
  let processed ← processMessageTuples newMessages
  .ok (formatMessagesLoop run_id thread_id session_id processed [])

/-- manager.AgentManager._format_events: dispatch on the stream mode; token
events are produced only when stream_tokens is set. -/
def format_events (current_tool_call_id : Option String) (ev : StreamEvent)
    (stream_tokens : Bool) (run_id thread_id : String)
    (session_id : Option String) : Except PyError (List OutputEvent) :=
  match ev with
  | .updates nodes => handle_update_events nodes run_id thread_id session_id
  | .messages msg metadata =>
      if stream_tokens then
        match handle_token_events current_tool_call_id msg metadata with
        | some e => .ok [e]
        | none => .ok []
      else .ok []
  | .custom cev =>
      match handle_custom_events cev run_id thread_id session_id with
      | some e => .ok [e]
      | none => .ok []

/-- schema.StreamRequest. -/
structure StreamRequest where
  message : String
  thread_id : Option String := none
  session_id : Option String := none
  user_id : Option String := none
  stream_tokens : Bool := true
deriving DecidableEq, Repr

/-- One engine run as observed by stream_response: the (mode, event) pairs
the engine yields, and whether it raises afterwards (`fails` with an empty
event list models an engine that raises before yielding anything, e.g. during
input preparation or state lookup). -/
structure EngineRun where
  events : List StreamEvent
  fails : Bool
deriving DecidableEq, Repr

/-- The terminal error event yielded by stream_response's except handler. -/
def agentErrorEvent : OutputEvent :=
  .error "Internal server error" false (some "agent_error")

/-- The streaming loop of stream_response: per event, first update the
tool-call tracking, then format; yield the formatted events.  Any exception
(from formatting, or from the engine once its events are exhausted) is caught
by the surrounding except, which yields the single terminal agent_error event
and ends the generator.  The second component records whether the fatal path
was taken. -/
def streamResponseGo (stream_tokens : Bool) (run_id thread_id : String)
    (session_id : Option String) :
    Option String → List StreamEvent → Bool → List OutputEvent × Bool
  | _, [], fails => if fails then ([agentErrorEvent], true) else ([], false)
  | tid, ev :: rest, fails =>
      let tid' := update_tool_call_tracking tid ev
      match format_events tid' ev stream_tokens run_id thread_id session_id with
      | .error _ => ([agentErrorEvent], true)
      | .ok evs =>
          let tail := streamResponseGo stream_tokens run_id thread_id
            session_id tid' rest fails
          (evs ++ tail.1, tail.2)

/-- manager.AgentManager.stream_response: the tracked tool-call id starts at
None, the effective session id is `request.session_id or thread_id`, and the
events of the run are processed by the streaming loop. -/
def stream_response (req : StreamRequest) (run : EngineRun)
    (run_id thread_id : String) : List OutputEvent × Bool :=
  let session_id := pyOrOpt req.session_id (some thread_id)
  streamResponseGo req.stream_tokens run_id thread_id session_id none
    run.events run.fails

/-- One output line of the streaming endpoint: a serialized event or the
literal "[DONE]" completion marker. -/
inductive OutLine where
  | ev (e : OutputEvent)
  | done
deriving DecidableEq, Repr

/-- The echo filter of routes/stream.message_generator: drop exactly the
message events whose content has type "human" and content equal to the
inbound request's message. -/
def isHumanEcho (userMessage : String) (e : OutputEvent) : Bool :=
  match e with
  | .message c => c.type == "human" && c.content == userMessage
  | _ => false

/-- routes/stream.message_generator: every event from stream_response that is
not a human echo is serialized as one line, and the finally block always
yields the "[DONE]" marker last.  stream_response itself never raises (its
body is wrapped in an except that converts failures into the terminal error
event), so the generator's own except branch is unreachable. -/
def message_generator (req : StreamRequest) (run : EngineRun)
    (run_id thread_id : String) : List OutLine :=
  (((stream_response req run run_id thread_id).1.filter
      (fun e => !isHumanEcho req.message e)).map OutLine.ev) ++ [OutLine.done]

/-- One pending task of the engine's persisted state; `interrupts` is `none`
when the task has no interrupts attribute. -/
structure TaskInfo where
  interrupts : Option (List Interrupt) := none
deriving DecidableEq, Repr

/-- The engine's persisted state for a thread, as read by aget_state. -/
structure AgentState where
  tasks : List TaskInfo
deriving DecidableEq, Repr

/-- The engine input selected by _handle_input: a Command(resume=message)
directive or a fresh messages turn. -/
inductive AgentInput where
  | resume (message : String)
  | freshTurn (messages : List BaseMessage)
deriving DecidableEq, Repr

/-- The comprehension condition of _handle_input's interrupted_tasks:
`hasattr(task, "interrupts") and task.interrupts` — the attribute exists and
is a non-empty list. -/
def taskHasInterrupts (t : TaskInfo) : Bool :=
  match t.interrupts with
  | some l => !l.isEmpty
  | none => false

/-- The input-selection logic of manager.AgentManager._handle_input: collect
the persisted tasks that have a non-empty interrupts attribute; when any
exist the input is Command(resume=request.message), otherwise it is a fresh
turn of exactly one HumanMessage with the request's message. -/
def handle_input_message (req : StreamRequest) (state : AgentState) :
    AgentInput :=
  if !(state.tasks.filter taskHasInterrupts).isEmpty then .resume req.message
  else .freshTurn [.human (.str req.message)]

/-! Theorems settling the claims. -/

/-- A concrete AI message with a non-empty direct tool-call list and a
side-channel tool-call list in additional_kwargs. -/
def c10Input : BaseMessage :=
  .ai (.str "hi") [{ name := some "t", args := some [], id := some "1" }]
    { tool_calls := some [{ name := some "u", args := some [], id := some "2" }] }
    []

/-- C10: the claim states that langchain_to_chat_message leaves its input
unchanged, in particular the raw AI message's tool-call list.  The code binds
`tool_calls = message.tool_calls or []`, which aliases the input's list when
it is non-empty, and then extends that alias with the side-channel tool calls,
so the input message's tool_calls list is mutated in place: after the call on
`c10Input` it holds both entries.  This contradicts the spec's "pure
transformation, stateless per call" and the claim, so the code, not the
claim, is wrong. -/
theorem c10_mutation :
    (langchain_to_chat_message_full c10Input).2 =
      .ai (.str "hi")
        [{ name := some "t", args := some [], id := some "1" },
         { name := some "u", args := some [], id := some "2" }]
        { tool_calls := some [{ name := some "u", args := some [], id := some "2" }] }
        [] ∧
    (langchain_to_chat_message_full c10Input).2 ≠ c10Input := by
  exact ⟨rfl, by decide⟩

/-- The four supported raw message shapes, with the custom-role chat shape as
the spec describes it in section 4.1: its content payload has a first element
and that element is a mapping (so that it can become custom_data). -/
def c5SupportedShape : BaseMessage → Bool
  | .human _ => true
  | .ai _ _ _ _ => true
  | .tool _ _ _ => true
  | .chat role content =>
      role == "custom" &&
        (match content with
         | .items (.tagged _ _ :: _) => true
         | _ => false)
  | .unknown _ => false

/-- C5 counterexample: a custom-role chat message whose content payload is an
empty list is one of the claim's "four supported raw message shapes", yet the
code does not return a ChatMessage for it: `message.content[0]` raises
IndexError, which is not the UnsupportedMessageKind ValueError either. -/
theorem c5_counterexample :
    langchain_to_chat_message (.chat "custom" (.items [])) =
      .error .indexError ∧
    PyError.indexError ≠
      .valueError "Unsupported chat message role: custom" := by
  exact ⟨rfl, by decide⟩

/-- C5 amended: normalize is deterministic (it is a function of its input
value) and total over human, AI, tool-result, and custom-role chat messages
whose content payload has a mapping first element; a chat message with any
other role fails with the UnsupportedMessageKind ValueError naming the role,
and any unrecognized message class fails with the UnsupportedMessageKind
ValueError naming the class — both propagated to the caller as the error
result.  Custom-role messages with an empty or non-mapping-first content
payload instead fail with an index or validation error (see the
counterexample). -/
theorem c5_amended : ∀ m : BaseMessage,
    (c5SupportedShape m = true →
      ∃ cm, langchain_to_chat_message m = .ok cm) ∧
    (∀ role c, m = .chat role c → role ≠ "custom" →
      langchain_to_chat_message m =
        .error (.valueError ("Unsupported chat message role: " ++ role))) ∧
    (∀ n, m = .unknown n →
      langchain_to_chat_message m =
        .error (.valueError ("Unsupported message type: " ++ n))) := by
  intro m
  refine ⟨?_, ?_, ?_⟩
  · intro h
    cases m with
    | human c => exact ⟨_, rfl⟩
    | ai c tcs kw rm => exact ⟨_, rfl⟩
    | tool c tcid n => exact ⟨_, rfl⟩
    | chat role content =>
        simp only [c5SupportedShape, Bool.and_eq_true, beq_iff_eq] at h
        obtain ⟨hrole, hcont⟩ := h
        subst hrole
        cases content with
        | str s => simp at hcont
        | items l =>
            cases l with
            | nil => simp at hcont
            | cons hd tl =>
                cases hd with
                | str s => simp at hcont
                | tagged t x =>
                    exact ⟨_, rfl⟩
    | unknown n => simp [c5SupportedShape] at h
  · intro role c hm hrole
    subst hm
    unfold langchain_to_chat_message langchain_to_chat_message_full
    simp [hrole]
  · intro n hm
    subst hm
    rfl

/-- C5 witness: the amended theorem applied to a concrete human message and a
concrete wrong-role chat message. -/
theorem c5_witness :
    (∃ cm, langchain_to_chat_message (.human (.str "hi")) = .ok cm) ∧
    langchain_to_chat_message (.chat "assistant" (.str "x")) =
      .error (.valueError ("Unsupported chat message role: " ++ "assistant")) := by
  refine ⟨(c5_amended (.human (.str "hi"))).1 (by decide), ?_⟩
  exact (c5_amended (.chat "assistant" (.str "x"))).2.1 "assistant" (.str "x")
    rfl (by decide)

/-- A custom-channel event the normalizer rejects: a chat message whose role
is not "custom". -/
def c3BadEvent : BaseMessage := .chat "weird" (.str "x")

/-- C3 counterexample: the claim states that when normalization of a
custom-channel event fails, the formatter emits a nonfatal error event.  On
this failing event the code's except branch logs and returns None, so no
event at all is emitted — in particular no error event. -/
theorem c3_counterexample :
    handle_custom_events c3BadEvent "run1" "thread1" none = none ∧
    langchain_to_chat_message c3BadEvent =
      .error (.valueError "Unsupported chat message role: weird") := by
  exact ⟨rfl, rfl⟩

/-- C3 amended: for every custom-channel event the formatter emits exactly
one message event when normalization succeeds; when normalization or
formatting fails it emits nothing for that event and does not raise (the
exception is caught and swallowed, yielding no event). -/
theorem c3_amended : ∀ (ev : BaseMessage) (rid tid : String)
    (sid : Option String),
    (∀ cm, langchain_to_chat_message ev = .ok cm →
      handle_custom_events ev rid tid sid =
        some (.message (convert_chat_message_to_simple_format
          { cm with run_id := some rid } tid sid))) ∧
    (∀ err, langchain_to_chat_message ev = .error err →
      handle_custom_events ev rid tid sid = none) := by
  intro ev rid tid sid
  constructor
  · intro cm h
    unfold handle_custom_events
    rw [h]
  · intro err h
    unfold handle_custom_events
    rw [h]

/-- C3 witness: the amended theorem applied to the concrete failing event and
to a concrete succeeding event. -/
theorem c3_witness :
    handle_custom_events c3BadEvent "run1" "thread1" none = none ∧
    handle_custom_events (.human (.str "ping")) "run1" "thread1" none =
      some (.message (convert_chat_message_to_simple_format
        { type := "human", content := "ping", run_id := some "run1" }
        "thread1" none)) := by
  constructor
  · exact (c3_amended c3BadEvent "run1" "thread1" none).2
      (.valueError "Unsupported chat message role: weird") rfl
  · exact (c3_amended (.human (.str "ping")) "run1" "thread1" none).1
      { type := "human", content := "ping" } rfl

/-- An updates-channel batch of three messages whose second one is malformed
(a chat message with an unsupported role). -/
def c2Batch : List (String × NodeUpdates) :=
  [("agent", .dict (some
    [.msg (.human (.str "hello")),
     .msg (.chat "weird" (.str "x")),
     .msg (.ai (.str "ok") [] {} [])]))]

/-- C2 counterexample: on the batch of three messages whose second is
malformed the formatter does emit message-event, error-event, message-event
in order, but the error event's content carries only the fixed text
"Message formatting error" and recoverable=true — it has no error_type field
at all, so in particular no `message_formatting_error` type tag as the claim
states. -/
theorem c2_counterexample :
    handle_update_events c2Batch "r1" "t1" none = .ok
      [.message { type := "human", content := "hello", run_id := some "r1",
                  thread_id := some "t1" },
       .error "Message formatting error" true none,
       .message { type := "ai", content := "ok", run_id := some "r1",
                  thread_id := some "t1" }] ∧
    (none : Option String) ≠ some "message_formatting_error" := by
  exact ⟨rfl, by decide⟩

/-- Helper for C2: the message loop of _handle_update_events is the map of
the per-message formatter over the batch. -/
theorem formatMessagesLoop_eq_map (rid tid : String) (sid : Option String) :
    ∀ (msgs : List BaseMessage) (acc : List OutputEvent),
      formatMessagesLoop rid tid sid msgs acc =
        acc ++ msgs.map (formatProcessedMessage rid tid sid) := by
  intro msgs
  induction msgs with
  | nil => intro acc; simp [formatMessagesLoop]
  | cons m rest ih =>
      intro acc
      simp [formatMessagesLoop, ih]

/-- C2 amended: the formatter emits exactly one event per processed message,
in batch order (the loop is the map of the per-message formatter, so one bad
message never aborts the batch), and a message whose normalization or
formatting fails contributes exactly one error event whose content is the
fixed text "Message formatting error" with recoverable=true and no error_type
field. -/
theorem c2_amended : ∀ (rid tid : String) (sid : Option String)
    (msgs : List BaseMessage),
    formatMessagesLoop rid tid sid msgs [] =
      msgs.map (formatProcessedMessage rid tid sid) ∧
    ∀ m err, langchain_to_chat_message m = .error err →
      formatProcessedMessage rid tid sid m =
        .error "Message formatting error" true none := by
  intro rid tid sid msgs
  constructor
  · simpa using formatMessagesLoop_eq_map rid tid sid msgs []
  · intro m err h
    unfold formatProcessedMessage
    rw [h]

/-- C2 witness: the amended theorem applied to the malformed middle message
of the concrete batch. -/
theorem c2_witness :
    formatProcessedMessage "r1" "t1" none (.chat "weird" (.str "x")) =
      .error "Message formatting error" true none :=
  (c2_amended "r1" "t1" none []).2 (.chat "weird" (.str "x"))
    (.valueError "Unsupported chat message role: weird") rfl

/-- C4: for every inbound request, given the engine's persisted state for the
resolved thread, the input passed to the engine is the resume directive
carrying the request's message exactly when some pending task on that state
has a non-empty interrupts attribute, and otherwise is a fresh turn of
exactly one human message with the request's message as content. -/
theorem c4_resume_iff_interrupted : ∀ (req : StreamRequest)
    (state : AgentState),
    (handle_input_message req state = .resume req.message ↔
      ∃ t ∈ state.tasks, ∃ l : List Interrupt,
        t.interrupts = some l ∧ l ≠ []) ∧
    (handle_input_message req state = .resume req.message ∨
      handle_input_message req state =
        .freshTurn [.human (.str req.message)]) := by
  intro req state
  have hpred : ∀ t : TaskInfo, taskHasInterrupts t = true ↔
      ∃ l : List Interrupt, t.interrupts = some l ∧ l ≠ [] := by
    intro t
    unfold taskHasInterrupts
    cases h : t.interrupts with
    | none => simp
    | some l =>
        constructor
        · intro hne
          exact ⟨l, rfl, by simpa [List.isEmpty_iff] using hne⟩
        · rintro ⟨l', hl', hne⟩
          cases hl'
          simpa [List.isEmpty_iff] using hne
  have hcond : ((state.tasks.filter taskHasInterrupts).isEmpty = false) ↔
      ∃ t ∈ state.tasks, ∃ l : List Interrupt,
        t.interrupts = some l ∧ l ≠ [] := by
    rw [List.isEmpty_eq_false]
    constructor
    · intro hne
      rcases List.exists_mem_of_ne_nil _ hne with ⟨t, ht⟩
      rcases List.mem_filter.1 ht with ⟨htm, htp⟩
      exact ⟨t, htm, (hpred t).1 htp⟩
    · rintro ⟨t, htm, hl⟩
      intro hnil
      have hmem : t ∈ state.tasks.filter taskHasInterrupts :=
        List.mem_filter.2 ⟨htm, (hpred t).2 hl⟩
      rw [hnil] at hmem
      exact absurd hmem (List.not_mem_nil t)
  unfold handle_input_message
  cases hc : (state.tasks.filter taskHasInterrupts).isEmpty with
  | false =>
      exact ⟨⟨fun _ => hcond.1 hc, fun _ => rfl⟩, Or.inl rfl⟩
  | true =>
      refine ⟨⟨fun h => ?_, fun hex => ?_⟩, Or.inr rfl⟩
      · simp at h
      · exact absurd (hcond.2 hex) (by simp [hc])

/-- C4 witness: the theorem applied to a request carrying "yes" and a state
with one interrupted task selects the resume directive; applied to an empty
state it selects the fresh single-human-message turn. -/
theorem c4_witness :
    handle_input_message { message := "yes" }
      { tasks := [{ interrupts := some [{ value := .str "confirm?" }] }] } =
      .resume "yes" ∧
    handle_input_message { message := "hi" } { tasks := [] } =
      .freshTurn [.human (.str "hi")] := by
  constructor
  · exact (c4_resume_iff_interrupted { message := "yes" }
      { tasks := [{ interrupts := some [{ value := .str "confirm?" }] }] }).1.2
      ⟨{ interrupts := some [{ value := .str "confirm?" }] }, by simp,
        [{ value := .str "confirm?" }], rfl, by simp⟩
  · have h := (c4_resume_iff_interrupted { message := "hi" }
      { tasks := [] }).2
    rcases h with h | h
    · exact absurd ((c4_resume_iff_interrupted { message := "hi" }
        { tasks := [] }).1.1 h) (by simp)
    · exact h

/-- The text of the token event the amended C7 predicts: the flattened
filtered content when the filtered content is truthy, nothing otherwise. -/
def c7TokenText (msg : StreamMsg) : Option String :=
  let filtered := remove_tool_calls msg.content
  if filtered.isTruthy then some (convert_message_content_to_string filtered)
  else none

/-- The tool_call_id the amended C7 predicts: the id extracted from the chunk
itself takes priority, the tracker's current id is the fallback, and a falsy
result means the field is omitted. -/
def c7AttachedId (current : Option String) (msg : StreamMsg) :
    Option String :=
  truthyOptStr (pyOrOpt (extract_tool_call_id_from_message msg) current)

/-- The amended C7 behavior of the token-channel formatter, written from the
amended claim: emit nothing when the tags carry the skip marker or the
message is not an AI chunk, else emit one token per truthy filtered content. -/
def c7Expected (current : Option String) (msg : StreamMsg) (md : Metadata) :
    Option OutputEvent :=
  if (md.tags.getD []).contains "skip_stream" || !msg.is_chunk then none
  else (c7TokenText msg).map (fun text =>
    .token text (c7AttachedId current msg))

/-- A chunk that carries a tool-call id only in tool_call_chunks, while the
tracker already holds a different id from an earlier event. -/
def c7Msg : StreamMsg :=
  { is_chunk := true, content := .str "hello", tool_calls := some [],
    tool_call_chunks := some [{ id := some "B" }], tool_call_id := none }

/-- Empty token-event metadata (no tags). -/
def c7Meta : Metadata := {}

/-- The token-channel stream event wrapping c7Msg. -/
def c7Event : StreamEvent := .messages c7Msg c7Meta

/-- C7 counterexample: with the tracker holding id "A" (and this chunk not
updating it, since tracking never reads tool_call_chunks), the claim says the
emitted token event carries the tracker's resolved id "A"; the code instead
attaches "B", the id extracted directly from the chunk's tool_call_chunks,
because the chunk-extracted id takes priority over the tracker id. -/
theorem c7_counterexample :
    update_tool_call_tracking (some "A") c7Event = some "A" ∧
    handle_token_events (update_tool_call_tracking (some "A") c7Event)
      c7Msg c7Meta = some (.token "hello" (some "B")) ∧
    (some "B" : Option String) ≠ some "A" := by
  exact ⟨rfl, rfl, by decide⟩

/-- C7 amended: for every token-channel event the formatter emits nothing if
the metadata tags contain the skip marker or the chunk is not an
AI-generation delta; otherwise it applies tool-call-fragment filtering to the
chunk content and, if the filtered content is non-empty, emits exactly one
token event whose text is the flattened filtered content, attaching as
tool_call_id the id the chunk itself carries directly (first tool_calls
entry, else first tool_call_chunks entry, else its own tool_call_id) when
that is available and non-empty, and otherwise the ToolCallTracker's current
id; the field is omitted when both are unavailable. -/
theorem c7_amended : ∀ (current : Option String) (msg : StreamMsg)
    (md : Metadata),
    handle_token_events current msg md = c7Expected current msg md := by
  intro current msg md
  unfold handle_token_events c7Expected c7TokenText c7AttachedId
  by_cases h1 : "skip_stream" ∈ md.tags.getD []
  · simp [h1]
  · by_cases h2 : msg.is_chunk
    · by_cases h3 : (remove_tool_calls msg.content).isTruthy
      · simp [h1, h2, h3]
      · simp [h1, h2, h3]
    · simp [h1, h2]

/-- Pre-composition form of the spec-side reassembly of message-fragment
pairs, written from the claim: scan in order carrying the accumulated field
dictionary, flush it through the AI message constructor at each non-pair item
and at the end of the list. -/
def specReassembleAux : List (String × PairVal) → List UpdateItem →
    Except PyError (List BaseMessage)
  | acc, [] =>
      if acc.isEmpty then .ok []
      else do
        let m ← createAiMessage acc
        .ok [m]
  | acc, .pair k v :: rest => specReassembleAux (dictInsert acc k v) rest
  | acc, .msg m :: rest =>
      if acc.isEmpty then do
        let tail ← specReassembleAux [] rest
        .ok (m :: tail)
      else do
        let am ← createAiMessage acc
        let tail ← specReassembleAux [] rest
        .ok (am :: m :: tail)

/-- The spec-side reassembly pass, started with an empty accumulator. -/
def specReassemble (l : List UpdateItem) : Except PyError (List BaseMessage) :=
  specReassembleAux [] l

/-- Helper for C8: the imperative loop of _process_message_tuples agrees with
the spec-side recursion, for every starting output list and accumulator. -/
theorem processGo_eq_spec (l : List UpdateItem) :
    ∀ (processed : List BaseMessage) (acc : List (String × PairVal)),
      processMessageTuplesGo processed acc l =
        (specReassembleAux acc l).map (fun r => processed ++ r) := by
  induction l with
  | nil =>
      intro processed acc
      unfold processMessageTuplesGo specReassembleAux
      by_cases h : acc.isEmpty
      · simp [h, Except.map]
      · cases hc : createAiMessage acc <;>
          simp [h, hc, Except.map, Except.bind, Bind.bind]
  | cons head rest ih =>
      intro processed acc
      cases head with
      | pair k v =>
          unfold processMessageTuplesGo specReassembleAux
          exact ih processed (dictInsert acc k v)
      | msg m =>
          unfold processMessageTuplesGo specReassembleAux
          by_cases h : acc.isEmpty
          · have hacc : acc = [] := List.isEmpty_iff.1 h
            subst hacc
            rw [if_pos h, if_pos h]
            rw [ih (processed ++ [m]) []]
            cases hs : specReassembleAux [] rest <;>
              simp [Except.map, Except.bind, Bind.bind]
          · rw [if_neg h, if_neg h]
            cases hc : createAiMessage acc with
            | error e => simp [hc, Except.map, Except.bind, Bind.bind]
            | ok am =>
                simp only [hc, Except.bind, Bind.bind]
                rw [ih (processed ++ [am, m]) []]
                cases hs : specReassembleAux [] rest <;>
                  simp [Except.map, Except.bind, Bind.bind]

/-- C8: the reassembly pass of the updates channel equals the spec-side
description — scan in order, accumulate consecutive pair items into one field
dictionary, flush the accumulated dictionary through the AI message
constructor immediately before emitting any non-pair item as-is, flush any
trailing accumulated dictionary at the end, preserving emission order — and
fields not recognized by the AI message constructor are dropped without
effect or error: appending an unrecognized field to the accumulated
dictionary leaves the constructed message unchanged. -/
theorem c8_reassembly : ∀ l : List UpdateItem,
    processMessageTuples l = specReassemble l ∧
    ∀ (parts : List (String × PairVal)) (k : String) (v : PairVal),
      aiMessageValidKeys.contains k = false →
      createAiMessage (parts ++ [(k, v)]) = createAiMessage parts := by
  intro l
  constructor
  · unfold processMessageTuples specReassemble
    rw [processGo_eq_spec l [] []]
    cases hs : specReassembleAux [] l <;> simp [Except.map]
  · intro parts k v h
    have h' : k ∉ aiMessageValidKeys := by simpa using h
    unfold createAiMessage
    rw [List.filter_append]
    simp [h']

/-- C8 witness: the theorem applied to a concrete fragment list, and the
unrecognized-field conjunct applied to a concrete dictionary and the
unrecognized key "foo". -/
theorem c8_witness :
    processMessageTuples
        [.pair "content" (.content (.str "x")), .msg (.human (.str "h"))] =
      specReassemble
        [.pair "content" (.content (.str "x")), .msg (.human (.str "h"))] ∧
    createAiMessage ([("content", PairVal.content (.str "x"))] ++
        [("foo", PairVal.other "y")]) =
      createAiMessage [("content", PairVal.content (.str "x"))] := by
  constructor
  · exact (c8_reassembly
      [.pair "content" (.content (.str "x")), .msg (.human (.str "h"))]).1
  · exact (c8_reassembly []).2 [("content", PairVal.content (.str "x"))]
      "foo" (.other "y") (by decide)

/-- Whether one updates-channel item makes the tracking step assign a new
current id: an AI message with a non-empty tool-call list, or a tool message
with a truthy tool_call_id. -/
def itemHasToolCallInfo : UpdateItem → Bool
  | .pair _ _ => false
  | .msg (.ai _ tcs _ _) => !tcs.isEmpty
  | .msg (.tool _ tcid _) => tcid != ""
  | .msg _ => false

/-- Whether one node entry of an updates-channel event can assign. -/
def nodeHasToolCallInfo (p : String × NodeUpdates) : Bool :=
  match p.2 with
  | .dict (some msgs) => msgs.any itemHasToolCallInfo
  | _ => false

/-- Whether a stream event carries any tool-call information the tracking
step would assign from. -/
def eventHasToolCallInfo : StreamEvent → Bool
  | .updates nodes => nodes.any nodeHasToolCallInfo
  | .messages msg _ =>
      (match msg.tool_calls with
       | some (_ :: _) => true
       | _ => false) || (truthyOptStr msg.tool_call_id).isSome
  | .custom _ => false

/-- A concrete updates event whose only message carries a non-empty tool-call
list whose single entry has no id field. -/
def c9Event : StreamEvent :=
  .updates [("agent", .dict (some
    [.msg (.ai (.str "") [{ name := some "t", args := some [] }] {} [])]))]

/-- C9 counterexample: this event carries a tool-call list without an id (so
it is in the claim's class of id-less event sequences), yet the tracker does
not hold its last known id "A" — the tracking step assigns
`message.tool_calls[0].get("id")`, which is None, overwriting the id. -/
theorem c9_counterexample :
    update_tool_call_tracking (some "A") c9Event = none ∧
    (none : Option String) ≠ some "A" := by
  exact ⟨rfl, by decide⟩

/-- Helper for C9: an item list with no assigning item yields no assignment. -/
theorem trackFromItems_eq_none : ∀ items : List UpdateItem,
    items.any itemHasToolCallInfo = false → trackFromItems items = none := by
  intro items
  induction items with
  | nil => intro _; rfl
  | cons item rest ih =>
      intro h
      simp only [List.any_cons, Bool.or_eq_false_iff] at h
      obtain ⟨h1, h2⟩ := h
      unfold trackFromItems
      have : trackFromUpdateItem item = none := by
        cases item with
        | pair k v => rfl
        | msg m =>
            cases m with
            | ai c tcs kw rm =>
                cases tcs with
                | nil => rfl
                | cons tc tl => simp [itemHasToolCallInfo] at h1
            | tool c tcid n =>
                have : tcid = "" := by
                  simpa [itemHasToolCallInfo] using h1
                simp [trackFromUpdateItem, this]
            | human c => rfl
            | chat role c => rfl
            | unknown s => rfl
      rw [this]
      exact ih h2

/-- Helper for C9: a node list with no assigning node yields no assignment. -/
theorem trackFromNodes_eq_none : ∀ nodes : List (String × NodeUpdates),
    nodes.any nodeHasToolCallInfo = false → trackFromNodes nodes = none := by
  intro nodes
  induction nodes with
  | nil => intro _; rfl
  | cons p rest ih =>
      intro h
      simp only [List.any_cons, Bool.or_eq_false_iff] at h
      obtain ⟨h1, h2⟩ := h
      obtain ⟨name, u⟩ := p
      cases u with
      | nothing => exact ih h2
      | interrupts l => exact ih h2
      | dict o =>
          cases o with
          | none => exact ih h2
          | some msgs =>
              have hi : trackFromItems msgs = none :=
                trackFromItems_eq_none msgs
                  (by simpa [nodeHasToolCallInfo] using h1)
              show (match trackFromItems msgs with
                    | some v => some v
                    | none => trackFromNodes rest) = none
              rw [hi]
              exact ih h2

/-- C9 amended: the tracking step never raises (it is total by construction,
the body being wrapped in an except that treats any lookup error as no
update), and over any sequence of events carrying neither a non-empty
tool-call list nor a truthy tool_call_id the current id is left unchanged at
its last known value; however, an event carrying a non-empty tool-call list
whose first entry lacks an id overwrites the current id with None rather than
holding it (see the counterexample). -/
theorem c9_amended : ∀ (tid : Option String) (evs : List StreamEvent),
    (∀ ev : StreamEvent, eventHasToolCallInfo ev = false →
      update_tool_call_tracking tid ev = tid) ∧
    ((∀ e ∈ evs, eventHasToolCallInfo e = false) →
      evs.foldl update_tool_call_tracking tid = tid) := by
  have hsingle : ∀ (tid : Option String) (ev : StreamEvent),
      eventHasToolCallInfo ev = false →
      update_tool_call_tracking tid ev = tid := by
    intro tid ev h
    cases ev with
    | updates nodes =>
        have hn : trackFromNodes nodes = none :=
          trackFromNodes_eq_none nodes
            (by simpa [eventHasToolCallInfo] using h)
        show (match trackFromNodes nodes with
              | some v => v
              | none => tid) = tid
        rw [hn]
    | messages msg md =>
        simp only [eventHasToolCallInfo, Bool.or_eq_false_iff] at h
        obtain ⟨h1, h2⟩ := h
        have htc : truthyOptStr msg.tool_call_id = none := by
          cases ht : truthyOptStr msg.tool_call_id with
          | none => rfl
          | some s => rw [ht] at h2; simp at h2
        show trackFromStreamMsg tid msg = tid
        unfold trackFromStreamMsg
        cases hm : msg.tool_calls with
        | none => rw [htc]
        | some l =>
            cases l with
            | nil => rw [htc]
            | cons tc tl => rw [hm] at h1; simp at h1
    | custom e => rfl
  intro tid evs
  refine ⟨hsingle tid, ?_⟩
  induction evs generalizing tid with
  | nil => intro _; rfl
  | cons e rest ih =>
      intro h
      have he : eventHasToolCallInfo e = false := h e (by simp)
      simp only [List.foldl_cons, hsingle tid e he]
      exact ih tid (fun x hx => h x (by simp [hx]))

/-- Empty metadata for the C9 witness events. -/
def c9WitnessMeta : Metadata := {}

/-- C9 witness: the amended theorem applied to a concrete sequence of an
id-less token chunk and a custom event, with the tracker holding "A". -/
theorem c9_witness :
    [StreamEvent.messages
        { is_chunk := true, content := .str "x", tool_calls := some [] }
        c9WitnessMeta,
     StreamEvent.custom (.human (.str "y"))].foldl
      update_tool_call_tracking (some "A") = some "A" :=
  (c9_amended (some "A")
    [.messages { is_chunk := true, content := .str "x",
                 tool_calls := some [] } c9WitnessMeta,
     .custom (.human (.str "y"))]).2 (by decide)

/-- C6: for every stream, no emitted output line is a message event whose
content has type "human" and content exactly equal to the inbound message,
and every event of the underlying stream that is not such an echo is emitted
(so a human message event with different content is not suppressed). -/
theorem c6_echo_suppression : ∀ (req : StreamRequest) (run : EngineRun)
    (rid tid : String),
    (∀ c : SimpleContent,
      OutLine.ev (.message c) ∈ message_generator req run rid tid →
      ¬(c.type = "human" ∧ c.content = req.message)) ∧
    (∀ e ∈ (stream_response req run rid tid).1,
      isHumanEcho req.message e = false →
      OutLine.ev e ∈ message_generator req run rid tid) := by
  intro req run rid tid
  constructor
  · rintro c hmem ⟨hty, hct⟩
    unfold message_generator at hmem
    rcases List.mem_append.1 hmem with hin | hin
    · rcases List.mem_map.1 hin with ⟨e, he, heq⟩
      injection heq with h2
      subst h2
      have he2 := (List.mem_filter.1 he).2
      simp [isHumanEcho, hty, hct] at he2
    · simp at hin
  · intro e he hecho
    unfold message_generator
    refine List.mem_append.2 (Or.inl ?_)
    refine List.mem_map.2 ⟨e, ?_, rfl⟩
    exact List.mem_filter.2 ⟨he, by simp [hecho]⟩

/-- C6 witness: on a concrete failing run the non-echo terminal error event
is emitted. -/
theorem c6_witness :
    OutLine.ev agentErrorEvent ∈
      message_generator { message := "hi" }
        { events := [], fails := true } "r" "t" :=
  (c6_echo_suppression { message := "hi" }
    { events := [], fails := true } "r" "t").2
    agentErrorEvent (by decide) (by decide)

/-- Whether an output event is a terminal (non-recoverable) error event. -/
def isFatalError : OutputEvent → Bool
  | .error _ recoverable _ => !recoverable
  | _ => false

/-- Helper for C1: the per-message formatter of the updates channel never
produces a non-recoverable error event. -/
theorem formatProcessedMessage_not_fatal (rid tid : String)
    (sid : Option String) (m : BaseMessage) :
    isFatalError (formatProcessedMessage rid tid sid m) = false := by
  unfold formatProcessedMessage
  cases langchain_to_chat_message m <;> rfl

/-- Helper for C1: the updates-channel message loop preserves
fatal-freeness. -/
theorem formatMessagesLoop_not_fatal (rid tid : String)
    (sid : Option String) :
    ∀ (msgs : List BaseMessage) (acc : List OutputEvent),
      (∀ e ∈ acc, isFatalError e = false) →
      ∀ e ∈ formatMessagesLoop rid tid sid msgs acc,
        isFatalError e = false := by
  intro msgs
  induction msgs with
  | nil => intro acc hacc e he; exact hacc e he
  | cons m rest ih =>
      intro acc hacc e he
      refine ih (acc ++ [formatProcessedMessage rid tid sid m]) ?_ e he
      intro x hx
      rcases List.mem_append.1 hx with h | h
      · exact hacc x h
      · have hx2 := List.mem_singleton.1 h
        subst hx2
        exact formatProcessedMessage_not_fatal rid tid sid m

/-- Helper for C1: a token event is never a fatal error event. -/
theorem handle_token_events_not_fatal (tid : Option String) (msg : StreamMsg)
    (md : Metadata) (e : OutputEvent)
    (h : handle_token_events tid msg md = some e) :
    isFatalError e = false := by
  unfold handle_token_events at h
  by_cases h1 : "skip_stream" ∈ md.tags.getD []
  · simp [h1] at h
  · by_cases h2 : msg.is_chunk
    · by_cases h3 : (remove_tool_calls msg.content).isTruthy
      · simp [h1, h2, h3] at h
        subst h
        rfl
      · simp [h1, h2, h3] at h
    · simp [h1, h2] at h

/-- Helper for C1: a custom-channel event is never a fatal error event. -/
theorem handle_custom_events_not_fatal (ev : BaseMessage)
    (rid tid : String) (sid : Option String) (e : OutputEvent)
    (h : handle_custom_events ev rid tid sid = some e) :
    isFatalError e = false := by
  unfold handle_custom_events at h
  cases hc : langchain_to_chat_message ev with
  | ok cm =>
      rw [hc] at h
      injection h with h2
      subst h2
      rfl
  | error er =>
      rw [hc] at h
      exact absurd h (by simp)

/-- Helper for C1: no event successfully produced by the per-event formatter
is a non-recoverable error event (the fatal event is produced only by the
stream-level except handler). -/
theorem format_events_not_fatal (tid : Option String) (ev : StreamEvent)
    (st : Bool) (rid tidd : String) (sid : Option String)
    (evs : List OutputEvent)
    (h : format_events tid ev st rid tidd sid = .ok evs) :
    ∀ e ∈ evs, isFatalError e = false := by
  cases ev with
  | updates nodes =>
      simp only [format_events, handle_update_events] at h
      cases hc : collectNewMessages nodes with
      | error er => rw [hc] at h; simp [Except.bind, Bind.bind] at h
      | ok newMsgs =>
          rw [hc] at h
          simp only [Except.bind, Bind.bind] at h
          cases hp : processMessageTuples newMsgs with
          | error er => rw [hp] at h; simp [Except.bind, Bind.bind] at h
          | ok processed =>
              rw [hp] at h
              simp only [Except.bind, Bind.bind, Except.ok.injEq] at h
              subst h
              exact formatMessagesLoop_not_fatal rid tidd sid processed []
                (by intro x hx; simp at hx)
  | messages msg md =>
      simp only [format_events] at h
      by_cases hst : st
      · rw [if_pos hst] at h
        cases ht : handle_token_events tid msg md with
        | none =>
            rw [ht] at h
            injection h with h2
            subst h2
            intro e he
            simp at he
        | some e0 =>
            rw [ht] at h
            injection h with h2
            subst h2
            intro e he
            have he2 := List.mem_singleton.1 he
            subst he2
            exact handle_token_events_not_fatal tid msg md e ht
      · rw [if_neg hst] at h
        injection h with h2
        subst h2
        intro e he
        simp at he
  | custom cev =>
      simp only [format_events] at h
      cases hcu : handle_custom_events cev rid tidd sid with
      | none =>
          rw [hcu] at h
          injection h with h2
          subst h2
          intro e he
          simp at he
      | some e0 =>
          rw [hcu] at h
          injection h with h2
          subst h2
          intro e he
          have he2 := List.mem_singleton.1 he
          subst he2
          exact handle_custom_events_not_fatal cev rid tidd sid e hcu

/-- Helper for C1: on a failing run the streaming loop's output is a
fatal-free prefix followed by exactly the terminal agent_error event. -/
theorem streamGo_fatal (st : Bool) (rid tidd : String)
    (sid : Option String) :
    ∀ (evs : List StreamEvent) (tid : Option String),
      ∃ pre : List OutputEvent,
        streamResponseGo st rid tidd sid tid evs true =
          (pre ++ [agentErrorEvent], true) ∧
        ∀ e ∈ pre, isFatalError e = false := by
  intro evs
  induction evs with
  | nil =>
      intro tid
      exact ⟨[], rfl, by intro e he; simp at he⟩
  | cons ev rest ih =>
      intro tid
      unfold streamResponseGo
      cases hf : format_events (update_tool_call_tracking tid ev) ev st rid
          tidd sid with
      | error er =>
          refine ⟨[], by simp [hf], ?_⟩
          intro e he
          simp at he
      | ok evs' =>
          rcases ih (update_tool_call_tracking tid ev) with ⟨pre, hpre, hnf⟩
          refine ⟨evs' ++ pre, ?_, ?_⟩
          · simp [hf, hpre]
          · intro e he
            rcases List.mem_append.1 he with h | h
            · exact format_events_not_fatal _ ev st rid tidd sid evs' hf e h
            · exact hnf e h

/-- C1: for every inbound request and every engine run, the output line
sequence of the streaming endpoint ends with the "[DONE]" sentinel line
(modeled by `OutLine.done`) as its last line — on normal completion, on an
engine failure before any event, and on a failure mid-stream — and in the
failure case the line immediately preceding the sentinel is the single
terminal error event with recoverable=false (error_type "agent_error"), no
other non-recoverable error event occurs, and no event at all follows it
before the sentinel. -/
theorem c1_stream_always_ends_done : ∀ (req : StreamRequest)
    (run : EngineRun) (rid tid : String),
    (message_generator req run rid tid).getLast? = some .done ∧
    (run.fails = true → ∃ pre : List OutLine,
      message_generator req run rid tid =
        pre ++ [.ev agentErrorEvent, .done] ∧
      agentErrorEvent =
        .error "Internal server error" false (some "agent_error") ∧
      ∀ e : OutputEvent, OutLine.ev e ∈ pre → isFatalError e = false) := by
  intro req run rid tid
  constructor
  · unfold message_generator
    exact List.getLast?_concat _
  · intro hfail
    rcases streamGo_fatal req.stream_tokens rid tid
        (pyOrOpt req.session_id (some tid)) run.events none with
      ⟨pre, hpre, hnf⟩
    have hsr : (stream_response req run rid tid).1 =
        pre ++ [agentErrorEvent] := by
      unfold stream_response
      rw [hfail, hpre]
    refine ⟨(pre.filter (fun e => !isHumanEcho req.message e)).map OutLine.ev,
      ?_, rfl, ?_⟩
    · unfold message_generator
      have hfe : (([agentErrorEvent] : List OutputEvent).filter
          (fun e => !isHumanEcho req.message e)) = [agentErrorEvent] := rfl
      rw [hsr, List.filter_append, hfe, List.map_append]
      simp
    · intro e he
      rcases List.mem_map.1 he with ⟨e', he', heq⟩
      injection heq with h2
      subst h2
      exact hnf e' (List.mem_filter.1 he').1

/-- C1 witness: the theorem applied to a concrete request and a run that
fails before yielding any event. -/
theorem c1_witness :
    ∃ pre : List OutLine,
      message_generator { message := "hi" }
        { events := [], fails := true } "r" "t" =
        pre ++ [.ev agentErrorEvent, .done] ∧
      agentErrorEvent =
        .error "Internal server error" false (some "agent_error") ∧
      ∀ e : OutputEvent, OutLine.ev e ∈ pre → isFatalError e = false :=
  (c1_stream_always_ends_done { message := "hi" }
    { events := [], fails := true } "r" "t").2 rfl

end TemplateAgent
